import Mathlib

/-!
Verification of the weather ETL pipeline (`flows/weather_etl.py`,
`flows/create_tables.py`).

The pipeline is embedded shallowly:

* numeric payload values (temperatures, precipitation, wind) are modelled
  as rationals (`ℚ`);
* ISO-8601 timestamps and date strings are modelled as `String`s; the
  Python expression `datetime.fromisoformat(t).date()` applied to a valid
  ISO timestamp string is modelled by taking its first ten characters
  (the `YYYY-MM-DD` prefix), and comparison of `date` values coincides
  with comparison of those prefixes;
* `datetime.now()`-derived values (`tomorrow`, the archive timestamp, the
  `fetched_at` stamp) enter as parameters / environment fields, since the
  code computes them once per call from the wall clock;
* every external service (weather API, MinIO, ClickHouse, Telegram) is an
  oracle function in an `Env` record returning `Except String _`; a raised
  Python exception is `Except.error`;
* observable side effects (HTTP calls issued, rows inserted, objects
  archived, the final notification tally print) are recorded in a trace of
  `Event`s returned alongside each step's result.
-/

namespace WeatherEtl

/-- Date component of an ISO-8601 timestamp string: the `YYYY-MM-DD`
prefix, modelling `datetime.fromisoformat(s).date()` on well-formed
input. -/
def isoDate (s : String) : String := s.take 10

/-- Python 3 `round` to the nearest integer, ties to even (banker's
rounding), over the rationals. -/
def roundHalfEven (x : ℚ) : ℤ :=
  let f : ℤ := x.floor
  let r : ℚ := x - f
  if r < 1/2 then f
  else if 1/2 < r then f + 1
  else if f % 2 = 0 then f else f + 1

/-- Python `round(x, 1)`: round to one decimal place. -/
def round1 (x : ℚ) : ℚ := (roundHalfEven (x * 10) : ℚ) / 10

/-- The `hourly` object of the weather API response: parallel arrays
indexed against the shared `time` array. -/
structure HourlyData where
  time : List String
  temperature_2m : List ℚ
  precipitation : List ℚ
  wind_speed_10m : List ℚ
  wind_direction_10m : List ℚ
  deriving DecidableEq

/-- The `daily` object of the weather API response: parallel arrays
indexed against the shared `time` array of date strings. -/
structure DailyData where
  time : List String
  temperature_2m_max : List ℚ
  temperature_2m_min : List ℚ
  precipitation_sum : List ℚ
  deriving DecidableEq

/-- The body of a successful weather API response, before the pipeline
attaches `city` and `fetched_at`. -/
structure ApiData where
  hourly : HourlyData
  daily : DailyData
  deriving DecidableEq

/-- `RawForecastPayload`: the API response augmented with `city` and
`fetched_at` (as done by `fetch_weather_data` via `data.update`). -/
structure RawPayload where
  city : String
  fetched_at : String
  hourly : HourlyData
  daily : DailyData
  deriving DecidableEq

/-- One transformed hourly row, as inserted into `weather_hourly`.
`date` is the calendar-date string, `hour` the full timestamp string. -/
structure HourlyRecord where
  city : String
  date : String
  hour : String
  temperature : ℚ
  precipitation : ℚ
  wind_speed : ℚ
  wind_direction : ℚ
  deriving DecidableEq

/-- One daily summary row, as inserted into `weather_daily`. -/
structure DailySummary where
  city : String
  date : String
  temp_min : ℚ
  temp_max : ℚ
  temp_avg : ℚ
  precipitation_total : ℚ
  wind_max : ℚ
  deriving DecidableEq

/-- The hourly record built from index `i` of the payload's parallel
hourly arrays (the body of the list comprehension in
`transform_hourly_data`). -/
def hourlyRecordAt (city : String) (hd : HourlyData) (i : ℕ) : HourlyRecord :=
  { city := city
    date := isoDate (hd.time.getD i "")
    hour := hd.time.getD i ""
    temperature := hd.temperature_2m.getD i 0
    precipitation := hd.precipitation.getD i 0
    wind_speed := hd.wind_speed_10m.getD i 0
    wind_direction := hd.wind_direction_10m.getD i 0 }

/-- `transform_hourly_data`: scan indices `0 ≤ i < len(hourly.time)`,
keep those whose timestamp's date component equals `tomorrow`, and remap
the parallel arrays' values at each kept index into an `HourlyRecord`
(the Python list comprehension). `tomorrow` is the date string of
run date + 1 day, computed by the code from `datetime.now()`. -/
def transform_hourly_data (tomorrow : String) (data : RawPayload) :
    List HourlyRecord :=
  ((List.range data.hourly.time.length).filter
      (fun i => isoDate (data.hourly.time.getD i "") == tomorrow)).map
    (hourlyRecordAt data.city data.hourly)

/-- `transform_daily_data`: look up tomorrow's index in the daily `time`
array (`list.index` raises `ValueError` when absent, modelled as the
membership test); read `temp_min`, `temp_max`, `precipitation_sum` at
that index (an out-of-range read raises `IndexError`); derive `temp_avg`
as the rounded midpoint; `wind_max` is hard-coded to `0`. Both
`ValueError` and `IndexError` are caught and re-raised, i.e. the function
fails. -/
def transform_daily_data (tomorrow : String) (data : RawPayload) :
    Except String DailySummary :=
  let dd := data.daily
  if tomorrow ∈ dd.time then
    let i := dd.time.indexOf tomorrow
    if i < dd.temperature_2m_min.length ∧ i < dd.temperature_2m_max.length ∧
        i < dd.precipitation_sum.length then
      let temp_min := dd.temperature_2m_min.getD i 0
      let temp_max := dd.temperature_2m_max.getD i 0
      Except.ok
        { city := data.city
          date := tomorrow
          temp_min := temp_min
          temp_max := temp_max
          temp_avg := round1 ((temp_min + temp_max) / 2)
          precipitation_total := dd.precipitation_sum.getD i 0
          wind_max := 0 }
    else Except.error "IndexError: list index out of range"
  else Except.error "ValueError: tomorrow is not in list"

/-- One update returned by Telegram `getUpdates`. `message` is
`some chatId` when the update contains a `message` object, holding
`update['message']['chat']['id']`. -/
structure TgUpdate where
  message : Option ℤ
  deriving DecidableEq

/-- The decoded JSON body of a Telegram `getUpdates` response. -/
structure TgResponse where
  ok : Bool
  result : List TgUpdate
  deriving DecidableEq

/-- Observable side effects of a pipeline run. -/
inductive Event where
  /-- one HTTP GET issued against the weather API (attempt number `k`). -/
  | fetchAttempted (city : String) (k : ℕ)
  /-- `put_object` stored `data` in `weather-raw` under key `filename`. -/
  | archived (filename : String) (data : RawPayload)
  /-- one `INSERT` into `weather_hourly`. -/
  | insertedHourly (r : HourlyRecord)
  /-- one `INSERT` into `weather_daily`. -/
  | insertedDaily (s : DailySummary)
  /-- one HTTP GET issued against Telegram `getUpdates`. -/
  | getUpdatesCalled (token : String)
  /-- one HTTP POST issued against Telegram `sendMessage`. -/
  | sentMessage (chatId : String)
  /-- the final `"Notifications sent: S successful, F failed"` print. -/
  | tallyReported (successful failed : ℕ)
  deriving DecidableEq

/-- Oracle environment standing for the external services and the wall
clock.  Each oracle returns `Except.error` where the Python client call
would raise. -/
structure Env where
  /-- weather API response for attempt `k` of a fetch for a city at the
  given coordinates (transport errors, non-2xx via `raise_for_status`,
  and JSON decoding errors are `Except.error`). -/
  fetchAttempt : String → ℚ → ℚ → ℕ → Except String ApiData
  /-- `datetime.now().isoformat()` at fetch time. -/
  fetchedAt : String
  /-- `bucket_exists` + `make_bucket` for `weather-raw`. -/
  ensureBucket : Except String Unit
  /-- `put_object bucket filename payload`. -/
  putObject : String → String → RawPayload → Except String Unit
  /-- `datetime.now().strftime('%Y%m%d_%H%M%S')` at archive time. -/
  nowTimestamp : String
  /-- the `YYYY-MM-DD` string for run date + 1 day. -/
  tomorrow : String
  /-- one `INSERT` of an hourly row via the ClickHouse client. -/
  insertHourly : HourlyRecord → Except String Unit
  /-- one `INSERT` of a daily row via the ClickHouse client. -/
  insertDaily : DailySummary → Except String Unit
  /-- `os.getenv('TELEGRAM_BOT_TOKEN')`. -/
  botToken : Option String
  /-- GET `getUpdates` for a token, returning the decoded body. -/
  getUpdates : String → Except String TgResponse
  /-- POST `sendMessage token chatId text`, returning the HTTP status. -/
  sendMessage : String → String → String → Except String ℕ

/-- `get_chat_ids`: call `getUpdates`; on any exception or on
`ok == false` return `[]`; otherwise return the set of chat ids (as
strings) of updates containing a message.  The Python set comprehension
is modelled by `dedup` of the extraction in update order. -/
def get_chat_ids (env : Env) (bot_token : String) :
    List String × List Event :=
  match env.getUpdates bot_token with
  | Except.error _ => ([], [Event.getUpdatesCalled bot_token])
  | Except.ok data =>
    if !data.ok then ([], [Event.getUpdatesCalled bot_token])
    else
      ((data.result.filterMap (fun u => u.message.map toString)).dedup,
        [Event.getUpdatesCalled bot_token])

/-- Number of retries configured on the `fetch_weather_data` task:
`@task(retries=3, retry_delay_seconds=10)`. -/
def fetchRetries : ℕ := 3

/-- Prefect task retry semantics, modelled from Prefect's documented
`retries` parameter: run the task body once, and on failure re-run it up
to `retries` more times; the last failure propagates.  `k` is the index
of the current attempt. -/
def runWithRetries (attempt : ℕ → Except String ApiData) (city : String) :
    ℕ → ℕ → Except String ApiData × List Event
  | k, 0 => (attempt k, [Event.fetchAttempted city k])
  | k, r + 1 =>
    match attempt k with
    | Except.ok d => (Except.ok d, [Event.fetchAttempted city k])
    | Except.error _ =>
      let rest := runWithRetries attempt city (k + 1) r
      (rest.1, Event.fetchAttempted city k :: rest.2)

/-- `fetch_weather_data`: GET the 2-day forecast (under the Prefect
retry policy) and augment the response with `city` and `fetched_at`. -/
def fetch_weather_data (env : Env) (city : String) (latitude longitude : ℚ) :
    Except String RawPayload × List Event :=
  let run := runWithRetries (env.fetchAttempt city latitude longitude) city 0
    fetchRetries
  match run.1 with
  | Except.ok d =>
    (Except.ok
      { city := city, fetched_at := env.fetchedAt
        hourly := d.hourly, daily := d.daily }, run.2)
  | Except.error e => (Except.error e, run.2)

/-- The MinIO bucket name. -/
def bucketName : String := "weather-raw"

/-- The archive object key: `f"{city}_{timestamp}.json"` where
`timestamp` is the second-granularity `YYYYMMDD_HHMMSS` string. -/
def archiveKey (city timestamp : String) : String :=
  city ++ "_" ++ timestamp ++ ".json"

/-- `save_raw_data_to_minio`: ensure the bucket exists, then store the
payload under `archiveKey city nowTimestamp` and return the key; any
client error propagates. -/
def save_raw_data_to_minio (env : Env) (data : RawPayload) (city : String) :
    Except String String × List Event :=
  match env.ensureBucket with
  | Except.error e => (Except.error e, [])
  | Except.ok _ =>
    let filename := archiveKey city env.nowTimestamp
    match env.putObject bucketName filename data with
    | Except.ok _ => (Except.ok filename, [Event.archived filename data])
    | Except.error e => (Except.error e, [])

/-- The insert loop of `load_hourly_data_to_clickhouse`: one `execute`
per record; the first failing insert propagates and stops the loop,
rows already sent stay sent. -/
def loadHourlyLoop (env : Env) : List HourlyRecord →
    Except String Unit × List Event
  | [] => (Except.ok (), [])
  | r :: rs =>
    match env.insertHourly r with
    | Except.ok _ =>
      let rest := loadHourlyLoop env rs
      (rest.1, Event.insertedHourly r :: rest.2)
    | Except.error e => (Except.error e, [])

/-- `load_hourly_data_to_clickhouse`: early return on an empty list
(`if not data: return`), otherwise insert record by record. -/
def load_hourly_data_to_clickhouse (env : Env) (data : List HourlyRecord) :
    Except String Unit × List Event :=
  if data = [] then (Except.ok (), [])
  else loadHourlyLoop env data

/-- `load_daily_data_to_clickhouse`: a single insert. -/
def load_daily_data_to_clickhouse (env : Env) (data : DailySummary) :
    Except String Unit × List Event :=
  match env.insertDaily data with
  | Except.ok _ => (Except.ok (), [Event.insertedDaily data])
  | Except.error e => (Except.error e, [])

/-- The forecast message text built by `send_telegram_notifications`. -/
def messageText (d : DailySummary) : String :=
  "Weather forecast for tomorrow (" ++ d.date ++ ")\nCity: " ++ d.city

/-- The per-recipient send loop: each send is attempted inside its own
`try`; HTTP 200 counts as successful, any other status or exception as
failed; no send aborts the batch. Returns the (successful, failed)
tally. -/
def sendLoop (env : Env) (token text : String) : List String →
    (ℕ × ℕ) × List Event
  | [] => ((0, 0), [])
  | chat_id :: rest =>
    let r := sendLoop env token text rest
    match env.sendMessage token chat_id text with
    | Except.ok 200 => ((r.1.1 + 1, r.1.2), Event.sentMessage chat_id :: r.2)
    | Except.ok _ => ((r.1.1, r.1.2 + 1), Event.sentMessage chat_id :: r.2)
    | Except.error _ => ((r.1.1, r.1.2 + 1), Event.sentMessage chat_id :: r.2)

/-- `send_telegram_notifications`: no-op when the bot token is unset or
no chat ids are resolved; otherwise send the message to every resolved
chat id and report the final (successful, failed) tally.  The function
itself never raises. -/
def send_telegram_notifications (env : Env) (daily_data : DailySummary) :
    Except String Unit × List Event :=
  match env.botToken with
  | none => (Except.ok (), [])
  | some bot_token =>
    let cr := get_chat_ids env bot_token
    if cr.1 = [] then (Except.ok (), cr.2)
    else
      let s := sendLoop env bot_token (messageText daily_data) cr.1
      (Except.ok (), cr.2 ++ s.2 ++ [Event.tallyReported s.1.1 s.1.2])

/-- A configured city: name and coordinates. -/
structure City where
  name : String
  latitude : ℚ
  longitude : ℚ
  deriving DecidableEq

/-- The `CITIES` configuration table. -/
def CITIES : List City :=
  [{ name := "Moscow", latitude := 55.7558/1, longitude := 37.6173/1 },
   { name := "Samara", latitude := 53.1959/1, longitude := 50.1002/1 }]

/-- The body of `process_city`'s `try` block: fetch → archive →
transform (hourly, daily) → load (hourly, daily) → notify, each step's
error aborting the rest of the sequence. -/
def run_city_pipeline (env : Env) (c : City) :
    Except String Unit × List Event :=
  let f := fetch_weather_data env c.name c.latitude c.longitude
  match f.1 with
  | Except.error e => (Except.error e, f.2)
  | Except.ok raw_data =>
    let a := save_raw_data_to_minio env raw_data c.name
    match a.1 with
    | Except.error e => (Except.error e, f.2 ++ a.2)
    | Except.ok _ =>
      let hourly_data := transform_hourly_data env.tomorrow raw_data
      match transform_daily_data env.tomorrow raw_data with
      | Except.error e => (Except.error e, f.2 ++ a.2)
      | Except.ok daily_data =>
        let lh := load_hourly_data_to_clickhouse env hourly_data
        match lh.1 with
        | Except.error e => (Except.error e, f.2 ++ a.2 ++ lh.2)
        | Except.ok _ =>
          let ld := load_daily_data_to_clickhouse env daily_data
          match ld.1 with
          | Except.error e => (Except.error e, f.2 ++ a.2 ++ lh.2 ++ ld.2)
          | Except.ok _ =>
            let n := send_telegram_notifications env daily_data
            (n.1, f.2 ++ a.2 ++ lh.2 ++ ld.2 ++ n.2)

/-- `true` for `Except.ok`, `false` for `Except.error` (the Python
truth value of "the call did not raise"). -/
def exceptOk {α : Type} : Except String α → Bool
  | Except.ok _ => true
  | Except.error _ => false

/-- `process_city`: run the pipeline for one city inside a blanket
`try/except`; any unhandled error is caught and converted to `False`,
success returns `True`.  The function never raises. -/
def process_city (env : Env) (c : City) : Bool × List Event :=
  let r := run_city_pipeline env c
  (exceptOk r.1, r.2)

/-- The orchestrator loop of `weather_etl_flow` over an arbitrary city
list: run `process_city` for each city in order, counting successes. -/
def weather_etl_flow_over (env : Env) : List City → ℕ × List Event
  | [] => (0, [])
  | c :: cs =>
    let r := process_city env c
    let rest := weather_etl_flow_over env cs
    ((if r.1 then 1 else 0) + rest.1, r.2 ++ rest.2)

/-- `weather_etl_flow`: iterate the configured `CITIES` and report
`success_count` out of `len(CITIES)`. -/
def weather_etl_flow (env : Env) : (ℕ × ℕ) × List Event :=
  let r := weather_etl_flow_over env CITIES
  ((r.1, CITIES.length), r.2)

/-! ### Sample data

A well-formed 2-day forecast payload for `Samara`, for a run on
2025-10-12 (so "tomorrow" is `2025-10-13`). -/

/-- Sample hourly series: one entry for today, two for tomorrow. -/
def sampleHourly : HourlyData :=
  { time := ["2025-10-12T23:00", "2025-10-13T00:00", "2025-10-13T01:00"]
    temperature_2m := [7, 9, 11]
    precipitation := [0, 1, 2]
    wind_speed_10m := [3, 4, 5]
    wind_direction_10m := [180, 190, 200] }

/-- Sample daily series covering today and tomorrow. -/
def sampleDaily : DailyData :=
  { time := ["2025-10-12", "2025-10-13"]
    temperature_2m_max := [18, 20]
    temperature_2m_min := [8, 10]
    precipitation_sum := [0, 2] }

/-- The sample raw payload. -/
def samplePayload : RawPayload :=
  { city := "Samara", fetched_at := "2025-10-12T10:00:00"
    hourly := sampleHourly, daily := sampleDaily }

/-- The daily summary the pipeline derives from `samplePayload`. -/
def sampleSummary : DailySummary :=
  { city := "Samara", date := "2025-10-13", temp_min := 10, temp_max := 20
    temp_avg := 15, precipitation_total := 2, wind_max := 0 }

/-- A daily series that mentions tomorrow in `time` but whose value
arrays are empty. -/
def shortDaily : DailyData :=
  { time := ["2025-10-13"], temperature_2m_max := []
    temperature_2m_min := [], precipitation_sum := [] }

/-- A payload on which the daily `time` array contains tomorrow yet the
daily transformation fails (an `IndexError` on the value arrays). -/
def shortDailyPayload : RawPayload :=
  { city := "Samara", fetched_at := "2025-10-12T10:00:00"
    hourly := sampleHourly, daily := shortDaily }

/-! ### Spec-side definitions

Definitions written from the spec's wording, to be compared with the
code-side functions above in refinement statements. -/

/-- One entry of the payload's hourly time series: the values of the
five parallel arrays at a common index (the spec's view of the `hourly`
object). -/
structure HourlyEntry where
  time : String
  temperature_2m : ℚ
  precipitation : ℚ
  wind_speed_10m : ℚ
  wind_direction_10m : ℚ
  deriving DecidableEq

/-- The payload's hourly time series read off the five parallel arrays
in source order. -/
def hourlyEntries : List String → List ℚ → List ℚ → List ℚ → List ℚ →
    List HourlyEntry
  | t :: ts, u :: us, q :: qs, w :: ws, d :: ds =>
    ⟨t, u, q, w, d⟩ :: hourlyEntries ts us qs ws ds
  | _, _, _, _, _ => []

/-- The spec's 1:1 field remap of a kept hourly entry into an
`HourlyRecord`. -/
def remapEntry (city : String) (e : HourlyEntry) : HourlyRecord :=
  { city := city
    date := isoDate e.time
    hour := e.time
    temperature := e.temperature_2m
    precipitation := e.precipitation
    wind_speed := e.wind_speed_10m
    wind_direction := e.wind_direction_10m }

/-! ### Sample environments -/

/-- An environment in which every external call succeeds: the weather
API returns the sample payload, all stores accept writes, and the bot
token is unset. -/
def okEnv : Env :=
  { fetchAttempt := fun _ _ _ _ => Except.ok ⟨sampleHourly, sampleDaily⟩
    fetchedAt := "2025-10-12T10:00:00"
    ensureBucket := Except.ok ()
    putObject := fun _ _ _ => Except.ok ()
    nowTimestamp := "20251012_100000"
    tomorrow := "2025-10-13"
    insertHourly := fun _ => Except.ok ()
    insertDaily := fun _ => Except.ok ()
    botToken := none
    getUpdates := fun _ => Except.ok ⟨true, []⟩
    sendMessage := fun _ _ _ => Except.ok 200 }

/-- A sample transformed hourly row (midnight tomorrow). -/
def hr1 : HourlyRecord :=
  { city := "Samara", date := "2025-10-13", hour := "2025-10-13T00:00"
    temperature := 9, precipitation := 1, wind_speed := 4
    wind_direction := 190 }

/-- A second sample transformed hourly row (1 am tomorrow). -/
def hr2 : HourlyRecord :=
  { city := "Samara", date := "2025-10-13", hour := "2025-10-13T01:00"
    temperature := 11, precipitation := 2, wind_speed := 5
    wind_direction := 200 }

/-- An environment whose ClickHouse client fails on `hr2`'s row. -/
def failingInsertEnv : Env :=
  { okEnv with
    insertHourly := fun r =>
      if r.hour = "2025-10-13T01:00" then Except.error "Connection refused"
      else Except.ok () }

/-- An environment whose Telegram `getUpdates` call raises. -/
def tgErrorEnv : Env :=
  { okEnv with
    botToken := some "TOKEN"
    getUpdates := fun _ => Except.error "ReadTimeout" }

/-- The updates returned by `getUpdates` in `tgEnv`: two messages from
chat 42 (one duplicated), one update without a message, one from
chat 7. -/
def tgUpdates : List TgUpdate := [⟨some 42⟩, ⟨none⟩, ⟨some 42⟩, ⟨some 7⟩]

/-- An environment with a configured bot token and some subscribers. -/
def tgEnv : Env :=
  { okEnv with
    botToken := some "TOKEN"
    getUpdates := fun _ => Except.ok ⟨true, tgUpdates⟩ }

/-- An environment with a configured bot token but an empty update log
(zero resolved subscribers). -/
def noUserEnv : Env :=
  { okEnv with botToken := some "TOKEN" }

/-- A single archive write: the city, the second-granularity timestamp
the code formats with `strftime('%Y%m%d_%H%M%S')`, and the sub-second
part of the write instant that this format discards. -/
structure ArchiveWrite where
  city : String
  second : String
  microsecond : ℕ
  deriving DecidableEq

/-- An archive write for Samara at the start of some second. -/
def writeA : ArchiveWrite :=
  { city := "Samara", second := "20251012_120000", microsecond := 0 }

/-- A distinct archive write for Samara within the same second:
it differs from `writeA` only in the sub-second instant, which the
key's timestamp format discards. -/
def writeB : ArchiveWrite :=
  { city := "Samara", second := "20251012_120000", microsecond := 500000 }

/-- A weather API oracle that returns HTTP 500 on the first three
attempts and succeeds on the fourth. -/
def flaky500 (k : ℕ) : Except String ApiData :=
  if k < 3 then Except.error "500 Server Error" else Except.ok ⟨sampleHourly, sampleDaily⟩

/-- An environment whose weather API fails exactly three times before
succeeding. -/
def flakyEnv : Env :=
  { okEnv with fetchAttempt := fun _ _ _ k => flaky500 k }

/-- An environment whose weather API returns HTTP 500 on every
attempt. -/
def always500Env : Env :=
  { okEnv with fetchAttempt := fun _ _ _ _ => Except.error "500 Server Error" }

/-- The configured Samara entry with simplified coordinates, used to
exercise `process_city` on concrete environments. -/
def samaraCity : City := { name := "Samara", latitude := 53, longitude := 50 }

/-- Evaluation of the daily transform on the sample payload. -/
theorem sample_daily_eval :
    transform_daily_data "2025-10-13" samplePayload = Except.ok sampleSummary := by
  have h1 : "2025-10-13" ∈ samplePayload.daily.time := by decide
  have h2 : samplePayload.daily.time.indexOf "2025-10-13" = 1 := by decide
  simp only [transform_daily_data, h2]
  rw [if_pos h1, if_pos (by decide)]
  norm_num [samplePayload, sampleDaily, sampleSummary, round1, roundHalfEven,
    Rat.floor]

/-! ### Theorems -/

/-- C4: whenever the daily transformation succeeds, the returned
summary's `temp_min` and `temp_max` are the values of the payload's
daily series at tomorrow's index, and `temp_avg` equals
`round((temp_min + temp_max) / 2, 1)`. -/
theorem daily_temp_avg_is_rounded_midpoint (tomorrow : String)
    (data : RawPayload) (s : DailySummary)
    (h : transform_daily_data tomorrow data = Except.ok s) :
    s.temp_min =
      data.daily.temperature_2m_min.getD (data.daily.time.indexOf tomorrow) 0 ∧
    s.temp_max =
      data.daily.temperature_2m_max.getD (data.daily.time.indexOf tomorrow) 0 ∧
    s.temp_avg = round1 ((s.temp_min + s.temp_max) / 2) := by
  simp only [transform_daily_data] at h
  split at h
  · split at h
    · injection h with h
      subst h
      exact ⟨rfl, rfl, rfl⟩
    · exact Except.noConfusion h
  · exact Except.noConfusion h

/-- Witness for `daily_temp_avg_is_rounded_midpoint` at the sample
payload. -/
theorem daily_temp_avg_is_rounded_midpoint_witness :
    sampleSummary.temp_min =
      samplePayload.daily.temperature_2m_min.getD
        (samplePayload.daily.time.indexOf "2025-10-13") 0 ∧
    sampleSummary.temp_max =
      samplePayload.daily.temperature_2m_max.getD
        (samplePayload.daily.time.indexOf "2025-10-13") 0 ∧
    sampleSummary.temp_avg =
      round1 ((sampleSummary.temp_min + sampleSummary.temp_max) / 2) :=
  daily_temp_avg_is_rounded_midpoint "2025-10-13" samplePayload sampleSummary
    sample_daily_eval

/-- C6: whenever the daily transformation succeeds, the returned
summary's `wind_max` is `0`, whatever the source payload held. -/
theorem daily_wind_max_always_zero (tomorrow : String) (data : RawPayload)
    (s : DailySummary)
    (h : transform_daily_data tomorrow data = Except.ok s) :
    s.wind_max = 0 := by
  simp only [transform_daily_data] at h
  split at h
  · split at h
    · injection h with h
      subst h
      rfl
    · exact Except.noConfusion h
  · exact Except.noConfusion h

/-- Witness for `daily_wind_max_always_zero` at the sample payload. -/
theorem daily_wind_max_always_zero_witness :
    transform_daily_data "2025-10-13" samplePayload = Except.ok sampleSummary ∧
    sampleSummary.wind_max = 0 :=
  ⟨sample_daily_eval,
    daily_wind_max_always_zero "2025-10-13" samplePayload sampleSummary
      sample_daily_eval⟩

/-- C3 counterexample: `shortDailyPayload`'s daily `time` array contains
tomorrow's date string, yet the daily transformation raises
(`IndexError` on the too-short value arrays) instead of returning a
summary. -/
theorem daily_tomorrow_present_yet_fails :
    "2025-10-13" ∈ shortDailyPayload.daily.time ∧
    transform_daily_data "2025-10-13" shortDailyPayload =
      Except.error "IndexError: list index out of range" := by
  constructor
  · decide
  · have h1 : "2025-10-13" ∈ shortDailyPayload.daily.time := by decide
    simp only [transform_daily_data]
    rw [if_pos h1, if_neg (by decide)]

/-- C3 amended: the daily transformation errors whenever tomorrow's date
string is absent from the daily `time` array, and returns exactly one
summary dated tomorrow whenever tomorrow is present *and* the daily
value arrays cover tomorrow's index. -/
theorem daily_transform_fails_iff_data_missing (tomorrow : String)
    (data : RawPayload) :
    (tomorrow ∉ data.daily.time →
      transform_daily_data tomorrow data =
        Except.error "ValueError: tomorrow is not in list") ∧
    (tomorrow ∈ data.daily.time →
      data.daily.time.indexOf tomorrow <
          data.daily.temperature_2m_min.length →
      data.daily.time.indexOf tomorrow <
          data.daily.temperature_2m_max.length →
      data.daily.time.indexOf tomorrow <
          data.daily.precipitation_sum.length →
      ∃ s, transform_daily_data tomorrow data = Except.ok s ∧
        s.date = tomorrow) := by
  constructor
  · intro hm
    simp only [transform_daily_data]
    rw [if_neg hm]
  · intro hm h1 h2 h3
    refine ⟨{ city := data.city, date := tomorrow
              temp_min := data.daily.temperature_2m_min.getD
                (data.daily.time.indexOf tomorrow) 0
              temp_max := data.daily.temperature_2m_max.getD
                (data.daily.time.indexOf tomorrow) 0
              temp_avg := round1
                ((data.daily.temperature_2m_min.getD
                    (data.daily.time.indexOf tomorrow) 0 +
                  data.daily.temperature_2m_max.getD
                    (data.daily.time.indexOf tomorrow) 0) / 2)
              precipitation_total := data.daily.precipitation_sum.getD
                (data.daily.time.indexOf tomorrow) 0
              wind_max := 0 }, ?_, rfl⟩
    simp only [transform_daily_data]
    rw [if_pos hm, if_pos ⟨h1, h2, h3⟩]

/-- Witness for `daily_transform_fails_iff_data_missing`: the missing
branch at a date absent from the sample payload, the success branch at
the sample payload's tomorrow. -/
theorem daily_transform_fails_iff_data_missing_witness :
    transform_daily_data "2025-10-14" samplePayload =
      Except.error "ValueError: tomorrow is not in list" ∧
    ∃ s, transform_daily_data "2025-10-13" samplePayload = Except.ok s ∧
      s.date = "2025-10-13" :=
  ⟨(daily_transform_fails_iff_data_missing "2025-10-14" samplePayload).1
      (by decide),
    (daily_transform_fails_iff_data_missing "2025-10-13" samplePayload).2
      (by decide) (by decide) (by decide) (by decide)⟩

/-- Pushing a filtered-and-mapped scan of `range (n+1)` through its
head index. -/
theorem range_succ_filter_map {α : Type} (n : ℕ) (q : ℕ → Bool)
    (f : ℕ → α) :
    ((List.range (n + 1)).filter q).map f =
      (if q 0 then [f 0] else []) ++
        (((List.range n).filter (fun i => q (i + 1))).map fun i => f (i + 1)) := by
  rw [List.range_succ_eq_map, List.filter_cons, List.filter_map]
  by_cases h : q 0 = true
  · simp [h, List.map_map, Function.comp_def]
  · simp [h, List.map_map, Function.comp_def]

/-- `hourlyRecordAt` at index 0 of cons-shaped arrays is the remap of
the head entry. -/
theorem hourlyRecordAt_zero (city : String) (t : String) (ts : List String)
    (u : ℚ) (us : List ℚ) (q : ℚ) (qs : List ℚ) (w : ℚ) (ws : List ℚ)
    (d : ℚ) (ds : List ℚ) :
    hourlyRecordAt city ⟨t :: ts, u :: us, q :: qs, w :: ws, d :: ds⟩ 0 =
      remapEntry city ⟨t, u, q, w, d⟩ := by
  simp [hourlyRecordAt, remapEntry]

/-- `hourlyRecordAt` at index `i + 1` of cons-shaped arrays reads the
tails at index `i`. -/
theorem hourlyRecordAt_cons (city : String) (t : String) (ts : List String)
    (u : ℚ) (us : List ℚ) (q : ℚ) (qs : List ℚ) (w : ℚ) (ws : List ℚ)
    (d : ℚ) (ds : List ℚ) (i : ℕ) :
    hourlyRecordAt city ⟨t :: ts, u :: us, q :: qs, w :: ws, d :: ds⟩
        (i + 1) =
      hourlyRecordAt city ⟨ts, us, qs, ws, ds⟩ i := by
  simp [hourlyRecordAt]

/-- The comprehension of `transform_hourly_data`, over parallel arrays
of equal length, is the filter-and-remap of the zipped entry list. -/
theorem hourlyComprehension_eq (city tomorrow : String) :
    ∀ (ts : List String) (us qs ws ds : List ℚ),
      us.length = ts.length → qs.length = ts.length →
      ws.length = ts.length → ds.length = ts.length →
      ((List.range ts.length).filter
          (fun i => isoDate (ts.getD i "") == tomorrow)).map
        (hourlyRecordAt city ⟨ts, us, qs, ws, ds⟩) =
      ((hourlyEntries ts us qs ws ds).filter
          (fun e => isoDate e.time == tomorrow)).map (remapEntry city) := by
  intro ts
  induction ts with
  | nil =>
    intro us qs ws ds h1 h2 h3 h4
    rw [List.length_eq_zero.mp h1, List.length_eq_zero.mp h2,
      List.length_eq_zero.mp h3, List.length_eq_zero.mp h4]
    rfl
  | cons t ts ih =>
    intro us qs ws ds h1 h2 h3 h4
    cases us with
    | nil => exact absurd h1 (by simp)
    | cons u us =>
      cases qs with
      | nil => exact absurd h2 (by simp)
      | cons q qs =>
        cases ws with
        | nil => exact absurd h3 (by simp)
        | cons w ws =>
          cases ds with
          | nil => exact absurd h4 (by simp)
          | cons d ds =>
            rw [List.length_cons, range_succ_filter_map]
            simp only [List.getD_cons_zero, List.getD_cons_succ,
              hourlyRecordAt_zero, hourlyRecordAt_cons]
            rw [ih us qs ws ds (by simpa using h1) (by simpa using h2)
              (by simpa using h3) (by simpa using h4)]
            rw [hourlyEntries, List.filter_cons]
            by_cases ht : (isoDate t == tomorrow) = true
            · simp [ht]
            · simp [ht]

/-- C2: on a well-formed payload (parallel hourly arrays of equal
length), the hourly transformation returns exactly the entries of the
hourly time series whose date component equals tomorrow, remapped 1:1
in source order; every returned record's date is tomorrow. -/
theorem hourly_transform_keeps_exactly_tomorrow (tomorrow : String)
    (data : RawPayload)
    (h1 : data.hourly.temperature_2m.length = data.hourly.time.length)
    (h2 : data.hourly.precipitation.length = data.hourly.time.length)
    (h3 : data.hourly.wind_speed_10m.length = data.hourly.time.length)
    (h4 : data.hourly.wind_direction_10m.length = data.hourly.time.length) :
    transform_hourly_data tomorrow data =
      ((hourlyEntries data.hourly.time data.hourly.temperature_2m
          data.hourly.precipitation data.hourly.wind_speed_10m
          data.hourly.wind_direction_10m).filter
        (fun e => isoDate e.time == tomorrow)).map (remapEntry data.city) ∧
    ∀ r ∈ transform_hourly_data tomorrow data, r.date = tomorrow := by
  constructor
  · exact hourlyComprehension_eq data.city tomorrow data.hourly.time
      data.hourly.temperature_2m data.hourly.precipitation
      data.hourly.wind_speed_10m data.hourly.wind_direction_10m h1 h2 h3 h4
  · intro r hr
    simp only [transform_hourly_data, List.mem_map, List.mem_filter] at hr
    obtain ⟨i, ⟨_, hpi⟩, rfl⟩ := hr
    simpa [hourlyRecordAt] using hpi

/-- Witness for `hourly_transform_keeps_exactly_tomorrow` at the sample
payload. -/
theorem hourly_transform_keeps_exactly_tomorrow_witness :
    transform_hourly_data "2025-10-13" samplePayload =
      ((hourlyEntries samplePayload.hourly.time
          samplePayload.hourly.temperature_2m
          samplePayload.hourly.precipitation
          samplePayload.hourly.wind_speed_10m
          samplePayload.hourly.wind_direction_10m).filter
        (fun e => isoDate e.time == "2025-10-13")).map
        (remapEntry samplePayload.city) ∧
    ∀ r ∈ transform_hourly_data "2025-10-13" samplePayload,
      r.date = "2025-10-13" :=
  hourly_transform_keeps_exactly_tomorrow "2025-10-13" samplePayload
    (by decide) (by decide) (by decide) (by decide)

/-- When every insert succeeds, the hourly insert loop issues one
insert per record, in order. -/
theorem loadHourlyLoop_all_ok (env : Env) :
    ∀ data : List HourlyRecord,
      (∀ r ∈ data, env.insertHourly r = Except.ok ()) →
      loadHourlyLoop env data =
        (Except.ok (), data.map Event.insertedHourly) := by
  intro data
  induction data with
  | nil => intro _; rfl
  | cons a l ih =>
    intro h
    have ha : env.insertHourly a = Except.ok () := h a (by simp)
    have hl := ih (fun r hr => h r (List.mem_cons_of_mem a hr))
    simp [loadHourlyLoop, ha, hl]

/-- The first failing insert stops the hourly insert loop: rows sent
before it stay sent, the error propagates, later rows are not sent. -/
theorem loadHourlyLoop_first_failure (env : Env) (r : HourlyRecord)
    (post : List HourlyRecord) (e : String) :
    ∀ pre : List HourlyRecord,
      (∀ q ∈ pre, env.insertHourly q = Except.ok ()) →
      env.insertHourly r = Except.error e →
      loadHourlyLoop env (pre ++ r :: post) =
        (Except.error e, pre.map Event.insertedHourly) := by
  intro pre
  induction pre with
  | nil =>
    intro _ herr
    simp [loadHourlyLoop, herr]
  | cons a l ih =>
    intro h herr
    have ha : env.insertHourly a = Except.ok () := h a (by simp)
    have hl := ih (fun q hq => h q (List.mem_cons_of_mem a hq)) herr
    simp [loadHourlyLoop, ha, hl]

/-- C7: the hourly loader is a no-op on the empty list (zero inserts,
no error); on a list all of whose inserts succeed it inserts each
record as one row, in source order; and a failing insert propagates
without undoing rows already sent and without sending later rows. -/
theorem hourly_load_row_per_record (env : Env) (data : List HourlyRecord) :
    (data = [] →
      load_hourly_data_to_clickhouse env data = (Except.ok (), [])) ∧
    ((∀ r ∈ data, env.insertHourly r = Except.ok ()) →
      load_hourly_data_to_clickhouse env data =
        (Except.ok (), data.map Event.insertedHourly)) ∧
    (∀ pre r post e, data = pre ++ r :: post →
      (∀ q ∈ pre, env.insertHourly q = Except.ok ()) →
      env.insertHourly r = Except.error e →
      load_hourly_data_to_clickhouse env data =
        (Except.error e, pre.map Event.insertedHourly)) := by
  refine ⟨?_, ?_, ?_⟩
  · intro h
    subst h
    rfl
  · intro h
    cases data with
    | nil => rfl
    | cons a l =>
      rw [load_hourly_data_to_clickhouse, if_neg (by simp)]
      exact loadHourlyLoop_all_ok env (a :: l) h
  · intro pre r post e hdata hpre herr
    subst hdata
    rw [load_hourly_data_to_clickhouse, if_neg (by simp)]
    exact loadHourlyLoop_first_failure env r post e pre hpre herr

/-- Witness for `hourly_load_row_per_record`: the empty list, a fully
successful two-record load, and a load whose second insert fails. -/
theorem hourly_load_row_per_record_witness :
    load_hourly_data_to_clickhouse okEnv [] = (Except.ok (), []) ∧
    load_hourly_data_to_clickhouse okEnv [hr1, hr2] =
      (Except.ok (), [Event.insertedHourly hr1, Event.insertedHourly hr2]) ∧
    load_hourly_data_to_clickhouse failingInsertEnv [hr1, hr2] =
      (Except.error "Connection refused", [Event.insertedHourly hr1]) :=
  ⟨(hourly_load_row_per_record okEnv []).1 rfl,
    (hourly_load_row_per_record okEnv [hr1, hr2]).2.1 (fun r _ => rfl),
    (hourly_load_row_per_record failingInsertEnv [hr1, hr2]).2.2
      [hr1] hr2 [] "Connection refused" rfl
      (by intro q hq; rw [List.mem_singleton.mp hq]; rfl) (by rfl)⟩

/-- Subscriber resolution issues exactly one `getUpdates` call,
whatever the outcome. -/
theorem get_chat_ids_events (env : Env) (bot_token : String) :
    (get_chat_ids env bot_token).2 = [Event.getUpdatesCalled bot_token] := by
  rw [get_chat_ids]
  cases env.getUpdates bot_token with
  | error e => rfl
  | ok data =>
    dsimp only
    by_cases h : data.ok <;> simp [h]

/-- C10: subscriber resolution never raises — a failed or malformed
`getUpdates` call, or `ok == false`, yields the empty list; on success
it yields the duplicate-free chat ids of updates containing a message;
and the notification step as a whole never fails the city's run. -/
theorem get_chat_ids_total_and_complete (env : Env) (bot_token : String) :
    (∀ e, env.getUpdates bot_token = Except.error e →
      (get_chat_ids env bot_token).1 = []) ∧
    (∀ resp, env.getUpdates bot_token = Except.ok resp →
      (resp.ok = false → (get_chat_ids env bot_token).1 = []) ∧
      (resp.ok = true →
        (get_chat_ids env bot_token).1.Nodup ∧
        ∀ x, x ∈ (get_chat_ids env bot_token).1 ↔
          ∃ u ∈ resp.result, ∃ c : ℤ, u.message = some c ∧
            x = toString c)) ∧
    (∀ d : DailySummary,
      (send_telegram_notifications env d).1 = Except.ok ()) := by
  refine ⟨?_, ?_, ?_⟩
  · intro e he
    simp [get_chat_ids, he]
  · intro resp hresp
    constructor
    · intro hok
      simp [get_chat_ids, hresp, hok]
    · intro hok
      constructor
      · simp [get_chat_ids, hresp, hok, List.nodup_dedup]
      · intro x
        simp only [get_chat_ids, hresp, hok, Bool.not_true, Bool.false_eq_true,
          if_false, List.mem_dedup, List.mem_filterMap]
        constructor
        · rintro ⟨u, hu, hmap⟩
          cases hm : u.message with
          | none => rw [hm] at hmap; exact absurd hmap (by simp)
          | some c =>
            rw [hm] at hmap
            exact ⟨u, hu, c, hm, by simpa using hmap.symm⟩
        · rintro ⟨u, hu, c, hm, rfl⟩
          exact ⟨u, hu, by simp [hm]⟩
  · intro d
    rw [send_telegram_notifications]
    cases env.botToken with
    | none => rfl
    | some token =>
      dsimp only
      by_cases h : (get_chat_ids env token).1 = [] <;> simp [h]

/-- Witness for `get_chat_ids_total_and_complete`: a raising
`getUpdates` yields no subscribers, a successful one yields the
deduplicated ids, and dispatch never errors. -/
theorem get_chat_ids_total_and_complete_witness :
    (get_chat_ids tgErrorEnv "TOKEN").1 = [] ∧
    (get_chat_ids tgEnv "TOKEN").1.Nodup ∧
    ("42" ∈ (get_chat_ids tgEnv "TOKEN").1 ↔
      ∃ u ∈ tgUpdates, ∃ c : ℤ, u.message = some c ∧ "42" = toString c) ∧
    (send_telegram_notifications tgErrorEnv sampleSummary).1 =
      Except.ok () :=
  ⟨(get_chat_ids_total_and_complete tgErrorEnv "TOKEN").1 "ReadTimeout" rfl,
    (((get_chat_ids_total_and_complete tgEnv "TOKEN").2.1
        ⟨true, tgUpdates⟩ rfl).2 rfl).1,
    (((get_chat_ids_total_and_complete tgEnv "TOKEN").2.1
        ⟨true, tgUpdates⟩ rfl).2 rfl).2 "42",
    (get_chat_ids_total_and_complete tgErrorEnv "TOKEN").2.2 sampleSummary⟩

/-- C8 counterexample: with the bot token configured and zero resolved
subscribers, the dispatcher does issue a network call (the `getUpdates`
request of subscriber resolution) and returns early without printing
any tally — in particular no `(0, 0)` tally. -/
theorem dispatcher_zero_subscribers_no_tally :
    noUserEnv.botToken = some "TOKEN" ∧
    (get_chat_ids noUserEnv "TOKEN").1 = [] ∧
    send_telegram_notifications noUserEnv sampleSummary =
      (Except.ok (), [Event.getUpdatesCalled "TOKEN"]) ∧
    Event.tallyReported 0 0 ∉
      (send_telegram_notifications noUserEnv sampleSummary).2 := by
  refine ⟨rfl, rfl, rfl, ?_⟩
  intro h
  exact absurd (List.mem_singleton.mp h) (by simp)

/-- C8 amended: with the token unset the dispatcher is a pure no-op
(no error, no calls at all); with the token set and zero resolved
subscribers it completes without error, issues only the single
`getUpdates` call of subscriber resolution, sends no messages, and
reports no tally. -/
theorem dispatcher_noop_on_no_subscribers (env : Env) (d : DailySummary) :
    (env.botToken = none →
      send_telegram_notifications env d = (Except.ok (), [])) ∧
    (∀ token, env.botToken = some token → (get_chat_ids env token).1 = [] →
      send_telegram_notifications env d =
        (Except.ok (), [Event.getUpdatesCalled token])) := by
  constructor
  · intro h
    rw [send_telegram_notifications, h]
  · intro token htok hempty
    rw [send_telegram_notifications, htok]
    dsimp only
    rw [if_pos hempty, get_chat_ids_events]

/-- Witness for `dispatcher_noop_on_no_subscribers`: the token-unset
environment and the zero-subscriber environment. -/
theorem dispatcher_noop_on_no_subscribers_witness :
    send_telegram_notifications okEnv sampleSummary = (Except.ok (), []) ∧
    send_telegram_notifications noUserEnv sampleSummary =
      (Except.ok (), [Event.getUpdatesCalled "TOKEN"]) :=
  ⟨(dispatcher_noop_on_no_subscribers okEnv sampleSummary).1 rfl,
    (dispatcher_noop_on_no_subscribers noUserEnv sampleSummary).2
      "TOKEN" rfl rfl⟩

/-- C9 counterexample: two distinct writes for the same city within the
same second (differing only in the sub-second instant that
`strftime('%Y%m%d_%H%M%S')` discards) produce the *same* key — so the
later `put_object` overwrites the earlier archive. -/
theorem archive_same_second_collision :
    writeA ≠ writeB ∧ writeA.second = writeB.second ∧
    archiveKey writeA.city writeA.second =
      archiveKey writeB.city writeB.second :=
  ⟨by decide, rfl, rfl⟩

/-- C9 amended: the key construction is injective in (city name,
second-granularity timestamp) for timestamps of equal length — so
writes at different seconds, or for different cities, never collide and
never overwrite one another — and the writer does store the payload
under `{city}_{timestamp}.json`. -/
theorem archive_key_injective_per_second (env : Env) (data : RawPayload)
    (c1 c2 t1 t2 : String) (hlen : t1.length = t2.length) :
    (archiveKey c1 t1 = archiveKey c2 t2 ↔ c1 = c2 ∧ t1 = t2) ∧
    (env.ensureBucket = Except.ok () →
      env.putObject bucketName (archiveKey c1 env.nowTimestamp) data =
        Except.ok () →
      save_raw_data_to_minio env data c1 =
        (Except.ok (archiveKey c1 env.nowTimestamp),
          [Event.archived (archiveKey c1 env.nowTimestamp) data])) := by
  constructor
  · constructor
    · intro h
      have hd := congrArg String.data h
      simp only [archiveKey, String.data_append] at hd
      have h1 := List.append_inj' hd rfl
      have h2 := List.append_inj' h1.1 hlen
      have h3 := List.append_cancel_right h2.1
      exact ⟨String.ext h3, String.ext h2.2⟩
    · rintro ⟨rfl, rfl⟩
      rfl
  · intro hb hp
    simp only [save_raw_data_to_minio, hb, hp]

/-- Witness for `archive_key_injective_per_second`: distinct cities
give distinct keys for the same second, and the writer stores the
sample payload under its key. -/
theorem archive_key_injective_per_second_witness :
    archiveKey "Moscow" "20251012_120000" ≠
      archiveKey "Samara" "20251012_120000" ∧
    save_raw_data_to_minio okEnv samplePayload "Samara" =
      (Except.ok (archiveKey "Samara" "20251012_100000"),
        [Event.archived (archiveKey "Samara" "20251012_100000")
          samplePayload]) :=
  ⟨fun h =>
    absurd
      ((archive_key_injective_per_second okEnv samplePayload "Moscow"
          "Samara" "20251012_120000" "20251012_120000" rfl).1.mp h).1
      (by decide),
    (archive_key_injective_per_second okEnv samplePayload "Samara"
        "Samara" "20251012_120000" "20251012_120000" rfl).2 rfl rfl⟩

/-- A task configured with `retries = r` runs its body at most `r + 1`
times. -/
theorem runWithRetries_length (f : ℕ → Except String ApiData)
    (city : String) :
    ∀ (r k : ℕ), (runWithRetries f city k r).2.length ≤ r + 1 := by
  intro r
  induction r with
  | zero =>
    intro k
    cases hf : f k <;> simp [runWithRetries, hf]
  | succ r ih =>
    intro k
    cases hf : f k with
    | ok d => simp [runWithRetries, hf]
    | error e =>
      have := ih (k + 1)
      simp only [runWithRetries, hf, List.length_cons]
      omega

/-- If every attempt in the window fails, the task fails. -/
theorem runWithRetries_all_fail (f : ℕ → Except String ApiData)
    (city : String) :
    ∀ (r k : ℕ), (∀ j, j ≤ k + r → ∃ e, f j = Except.error e) →
      ∃ e, (runWithRetries f city k r).1 = Except.error e := by
  intro r
  induction r with
  | zero =>
    intro k h
    obtain ⟨e, he⟩ := h k (by omega)
    exact ⟨e, by simp [runWithRetries, he]⟩
  | succ r ih =>
    intro k h
    obtain ⟨e, he⟩ := h k (by omega)
    have hrest := ih (k + 1) (fun j hj => h j (by omega))
    simpa [runWithRetries, he] using hrest

/-- Every event of the retry loop is a fetch attempt for this city. -/
theorem runWithRetries_events (f : ℕ → Except String ApiData)
    (city : String) :
    ∀ (r k : ℕ) (ev : Event), ev ∈ (runWithRetries f city k r).2 →
      ∃ j, ev = Event.fetchAttempted city j := by
  intro r
  induction r with
  | zero =>
    intro k ev h
    cases hf : f k <;> simp [runWithRetries, hf] at h <;> exact ⟨k, h⟩
  | succ r ih =>
    intro k ev h
    cases hf : f k with
    | ok d =>
      simp [runWithRetries, hf] at h
      exact ⟨k, h⟩
    | error e =>
      simp only [runWithRetries, hf, List.mem_cons] at h
      rcases h with h | h
      · exact ⟨k, h⟩
      · exact ih (k + 1) ev h

/-- The fetch's event trace is exactly the retry loop's trace. -/
theorem fetch_weather_data_events (env : Env) (city : String)
    (lat lon : ℚ) :
    (fetch_weather_data env city lat lon).2 =
      (runWithRetries (env.fetchAttempt city lat lon) city 0
        fetchRetries).2 := by
  simp only [fetch_weather_data]
  cases (runWithRetries (env.fetchAttempt city lat lon) city 0
    fetchRetries).1 <;> rfl

/-- C5 counterexample: an API that fails on attempts 0, 1 and 2 and
succeeds on attempt 3 makes the fetch *succeed* — the task performs a
fourth attempt after three failures, so it does not make at most 3
attempts, and three failed attempts do not yet propagate a failure. -/
theorem fetch_fourth_attempt_succeeds :
    flaky500 0 = Except.error "500 Server Error" ∧
    flaky500 1 = Except.error "500 Server Error" ∧
    flaky500 2 = Except.error "500 Server Error" ∧
    (fetch_weather_data flakyEnv "Samara" 53 50).1 =
      Except.ok samplePayload ∧
    (fetch_weather_data flakyEnv "Samara" 53 50).2 =
      [Event.fetchAttempted "Samara" 0, Event.fetchAttempted "Samara" 1,
        Event.fetchAttempted "Samara" 2, Event.fetchAttempted "Samara" 3] :=
  ⟨rfl, rfl, rfl, rfl, rfl⟩

/-- C5 amended: the fetch makes at most 4 attempts (one initial run
plus the 3 configured Prefect retries, with a fixed delay between
attempts); if every attempt fails, the failure propagates: the city's
run reports failure and no archive, transform, load or notify effect is
issued — every event of the run is a fetch attempt. -/
theorem fetch_retry_bound_and_step_isolation (env : Env) (c : City) :
    (fetch_weather_data env c.name c.latitude c.longitude).2.length ≤
      fetchRetries + 1 ∧
    ((∀ j, j ≤ fetchRetries →
        ∃ e, env.fetchAttempt c.name c.latitude c.longitude j =
          Except.error e) →
      (∃ e, (fetch_weather_data env c.name c.latitude c.longitude).1 =
        Except.error e) ∧
      (process_city env c).1 = false ∧
      ∀ ev ∈ (process_city env c).2,
        ∃ k, ev = Event.fetchAttempted c.name k) := by
  constructor
  · rw [fetch_weather_data_events]
    exact runWithRetries_length (env.fetchAttempt c.name c.latitude
      c.longitude) c.name fetchRetries 0
  · intro hfail
    obtain ⟨e, he⟩ := runWithRetries_all_fail
      (env.fetchAttempt c.name c.latitude c.longitude) c.name fetchRetries 0
      (fun j hj => hfail j (by omega))
    have hfe : (fetch_weather_data env c.name c.latitude c.longitude).1 =
        Except.error e := by
      simp only [fetch_weather_data]
      rw [he]
    have hrc : run_city_pipeline env c =
        (Except.error e,
          (fetch_weather_data env c.name c.latitude c.longitude).2) := by
      simp only [run_city_pipeline]
      rw [hfe]
    refine ⟨⟨e, hfe⟩, ?_, ?_⟩
    · simp [process_city, hrc, exceptOk]
    · intro ev hev
      simp only [process_city, hrc] at hev
      rw [fetch_weather_data_events] at hev
      exact runWithRetries_events
        (env.fetchAttempt c.name c.latitude c.longitude) c.name fetchRetries
        0 ev hev

/-- Witness for `fetch_retry_bound_and_step_isolation`: an API that
returns HTTP 500 on every attempt. -/
theorem fetch_retry_bound_and_step_isolation_witness :
    (fetch_weather_data always500Env "Samara" 53 50).2.length ≤
      fetchRetries + 1 ∧
    ((∃ e, (fetch_weather_data always500Env "Samara" 53 50).1 =
        Except.error e) ∧
      (process_city always500Env samaraCity).1 = false ∧
      ∀ ev ∈ (process_city always500Env samaraCity).2,
        ∃ k, ev = Event.fetchAttempted "Samara" k) :=
  ⟨(fetch_retry_bound_and_step_isolation always500Env samaraCity).1,
    (fetch_retry_bound_and_step_isolation always500Env samaraCity).2
      (fun _ _ => ⟨"500 Server Error", rfl⟩)⟩

/-- C1: the orchestrator is total — `process_city` converts any error
of the city's pipeline into `false` at the `try/except` boundary — and
for any environment and any configured city list the flow processes
every city (each city's full event trace appears, in order, whatever
the other cities' outcomes) and reports exactly the number of cities
whose run returned success; on the configured `CITIES` it reports that
count out of `CITIES.length`. -/
theorem orchestrator_counts_successes_and_isolates (env : Env)
    (cities : List City) :
    weather_etl_flow_over env cities =
      (cities.countP (fun c => (process_city env c).1),
        (cities.map (fun c => (process_city env c).2)).flatten) ∧
    weather_etl_flow env =
      ((CITIES.countP (fun c => (process_city env c).1), CITIES.length),
        (CITIES.map (fun c => (process_city env c).2)).flatten) := by
  have main : ∀ cs : List City, weather_etl_flow_over env cs =
      (cs.countP (fun c => (process_city env c).1),
        (cs.map (fun c => (process_city env c).2)).flatten) := by
    intro cs
    induction cs with
    | nil => rfl
    | cons c cs ih =>
      simp only [weather_etl_flow_over, ih, List.countP_cons, List.map_cons,
        List.flatten_cons, Prod.mk.injEq]
      exact ⟨by omega, trivial⟩
  exact ⟨main cities, by simp only [weather_etl_flow, main CITIES]⟩

end WeatherEtl
